import Mathlib

/-
Verification development for the Mineka booking backend (`app.py`).

The request handler `submit_booking`, the credential resolver
`get_google_sheets_client`, and the worksheet pipeline are embedded
shallowly.  Python strings are modelled as `List Char`; the JSON values
that can appear in a request body are modelled by a three-layer value
type (top-level body, field value, scalar) which covers nesting depth
two — the handler only ever observes deeper values through Python's
`str()` coercion, which for any container yields a non-empty bracketed
string, so depth two is sufficient to express every behaviour the
handler distinguishes.  The external collaborators (Google credential
loading, gspread spreadsheet API) are modelled as environment data:
each call site's possible results become fields of the environment, and
the worksheet operations (`row_values`, `update`, `append_row`,
`get_all_values`) are given their documented semantics over an explicit
row-list state.
-/

set_option autoImplicit false

namespace Mineka

/-- Python strings are modelled as lists of characters. -/
abbrev PyStr := List Char

/-- Convert a Lean string literal to the `List Char` model. -/
def pys (s : String) : PyStr := s.data

/-- The whitespace characters removed by Python's `str.strip()`. -/
def isPySpace (c : Char) : Bool :=
  c = ' ' || c = '\t' || c = '\n' || c = '\r' || c = '\x0b' || c = '\x0c'

/-- Model of Python `str.strip()`: drop leading and trailing whitespace. -/
def pyStrip (s : PyStr) : PyStr :=
  ((s.dropWhile isPySpace).reverse.dropWhile isPySpace).reverse

/-- Model of Python's substring test `pat in s` — prefix matcher. -/
def isPrefixMatch : List Char → List Char → Bool
  | [], _ => true
  | _ :: _, [] => false
  | a :: as, b :: bs => a == b && isPrefixMatch as bs

/-- Model of Python's substring test `pat in s` for strings. -/
def isSub (pat : PyStr) (s : PyStr) : Bool :=
  match s with
  | [] => pat.isEmpty
  | _ :: rest => isPrefixMatch pat s || isSub pat rest

/-- Model of Python `'#' in s` (single-character substring test). -/
def hasHash : PyStr → Bool
  | [] => false
  | c :: cs => c = '#' || hasHash cs

/-- Model of Python `s.split('#')[0]`: the text before the first `#`. -/
def takeBeforeHash : PyStr → PyStr
  | [] => []
  | c :: cs => if c = '#' then [] else c :: takeBeforeHash cs

/-- Model of Python `s.upper()` (ASCII). -/
def pyUpper (s : PyStr) : PyStr := s.map Char.toUpper

/-- Model of Python `s.lower()` (ASCII). -/
def pyLower (s : PyStr) : PyStr := s.map Char.toLower

/-- Model of Python `", ".join(xs)`. -/
def joinCommaSpace (xs : List PyStr) : PyStr := List.intercalate (pys ", ") xs

/-- Model of Python `str(n)` for integers. -/
def pyIntStr (n : Int) : PyStr :=
  if n < 0 then '-' :: Nat.toDigits 10 n.natAbs else Nat.toDigits 10 n.natAbs

/-- The single-quote character used by Python `repr` of strings. -/
def sq : Char := Char.ofNat 39

/-- Opening brace character (Python `str` of dicts). -/
def obr : Char := Char.ofNat 123

/-- Closing brace character (Python `str` of dicts). -/
def cbr : Char := Char.ofNat 125

/-- Scalar JSON-decoded Python values (innermost nesting layer). -/
inductive ScalarVal where
  | snull
  | sbool (b : Bool)
  | sint (n : Int)
  | sstr (s : PyStr)
deriving DecidableEq

/-- Python `str()` of a scalar value. -/
def scalarStr : ScalarVal → PyStr
  | .snull => pys "None"
  | .sbool true => pys "True"
  | .sbool false => pys "False"
  | .sint n => pyIntStr n
  | .sstr s => s

/-- Python `repr()` of a scalar value, as used when printing containers.
String escaping inside `repr` is abstracted to plain quoting; no claim
observes the repr text of a container element. -/
def scalarRepr : ScalarVal → PyStr
  | .sstr s => sq :: s ++ [sq]
  | v => scalarStr v

/-- A JSON-decoded Python value stored under a key of the request body. -/
inductive PyVal where
  | vnull
  | vbool (b : Bool)
  | vint (n : Int)
  | vstr (s : PyStr)
  | vlist (elems : List ScalarVal)
  | vdict (entries : List (PyStr × ScalarVal))
deriving DecidableEq

/-- Python `str()` of one dict entry inside a container repr. -/
def entryRepr (p : PyStr × ScalarVal) : PyStr :=
  sq :: p.1 ++ [sq] ++ pys ": " ++ scalarRepr p.2

/-- Python `str()` of a field value: scalars print via `str`, containers
via their bracketed repr (always non-empty). -/
def pyValStr : PyVal → PyStr
  | .vnull => pys "None"
  | .vbool true => pys "True"
  | .vbool false => pys "False"
  | .vint n => pyIntStr n
  | .vstr s => s
  | .vlist es => '[' :: joinCommaSpace (es.map scalarRepr) ++ [']']
  | .vdict fs => obr :: joinCommaSpace (fs.map entryRepr) ++ [cbr]

/-- The parsed request body: `request.get_json(force=True, silent=True)`
yields `None` (modelled upstream as `Option Body = none`) on a parse
failure, otherwise one of these decoded Python values. -/
inductive Body where
  | bnull
  | bbool (b : Bool)
  | bint (n : Int)
  | bstr (s : PyStr)
  | blist (elems : List PyVal)
  | bdict (entries : List (PyStr × PyVal))
deriving DecidableEq

/-- Python truthiness of a decoded body, as tested by `if not data`. -/
def Body.truthy : Body → Bool
  | .bnull => false
  | .bbool b => b
  | .bint n => n != 0
  | .bstr s => !s.isEmpty
  | .blist es => !es.isEmpty
  | .bdict fs => !fs.isEmpty

/-- Lookup in a parsed JSON object.  Python's JSON decoder keeps the last
occurrence of a duplicated key, so lookup is last-match. -/
def dictGetLast : List (PyStr × PyVal) → PyStr → Option PyVal
  | [], _ => none
  | p :: rest, k =>
    match dictGetLast rest k with
    | some v => some v
    | none => if p.1 == k then some p.2 else none

/-- Python `field in data`.  Dicts test key membership, lists test
element equality, strings test substring containment; other receivers
raise `TypeError` (modelled as `.error`), which the handler's outer
`except` turns into a 500 response. -/
def bodyContains (b : Body) (f : PyStr) : Except PyStr Bool :=
  match b with
  | .bdict fs => .ok (fs.any (fun p => p.1 == f))
  | .blist es => .ok (es.any (fun v => match v with | .vstr s => s == f | _ => false))
  | .bstr s => .ok (isSub f s)
  | _ => .error (pys "TypeError")

/-- Python `data[field]`.  Only dict receivers support string
subscripts; lists and strings raise `TypeError`, and a missing key
raises `KeyError` — both land in the handler's catch-all 500.  The
runtime's exception message text is abstracted to the exception name. -/
def bodyGet (b : Body) (f : PyStr) : Except PyStr PyVal :=
  match b with
  | .bdict fs =>
    match dictGetLast fs f with
    | some v => .ok v
    | none => .error (pys "KeyError")
  | _ => .error (pys "TypeError")

/-- The required booking fields, in source order. -/
def requiredFields : List PyStr :=
  [pys "name", pys "phone", pys "time", pys "location"]

/-- One iteration of the validation loop:
`field not in data or not str(data[field]).strip()`. -/
def fieldMissing (b : Body) (f : PyStr) : Except PyStr Bool := do
  let c ← bodyContains b f
  if c then
    let v ← bodyGet b f
    pure (pyStrip (pyValStr v)).isEmpty
  else
    pure true

/-- The validation loop over the required fields, collecting every
missing field in order. -/
def computeMissing (b : Body) : List PyStr → Except PyStr (List PyStr)
  | [] => .ok []
  | f :: fs => do
    let m ← fieldMissing b f
    let rest ← computeMissing b fs
    pure (if m then f :: rest else rest)

/-- The cleaned booking data built after validation passes:
`str(data[k]).strip()` for each required field. -/
structure BookingData where
  name : PyStr
  phone : PyStr
  bookingTime : PyStr
  location : PyStr
deriving DecidableEq

/-- Building `booking_data` from the parsed body. -/
def buildBookingData (b : Body) : Except PyStr BookingData := do
  let n ← bodyGet b (pys "name")
  let p ← bodyGet b (pys "phone")
  let t ← bodyGet b (pys "time")
  let l ← bodyGet b (pys "location")
  pure ⟨pyStrip (pyValStr n), pyStrip (pyValStr p),
        pyStrip (pyValStr t), pyStrip (pyValStr l)⟩

/-- An authenticated gspread client; the handler only ever reads the
service-account email from it. -/
structure Client where
  email : PyStr
deriving DecidableEq

/-- The state of one credential source as seen by
`get_google_sheets_client`: not present at all, present but unusable
(invalid JSON or bad credential fields — the `except` branches), or
present and yielding an authenticated client. -/
inductive SourceState where
  | absent
  | malformed
  | valid (c : Client)
deriving DecidableEq

/-- The client a single credential source yields, if any. -/
def srcClient : SourceState → Option Client
  | .valid c => some c
  | _ => none

/-- The environment `get_google_sheets_client` reads: the Render secret
file, the `GOOGLE_CREDENTIALS_JSON` variable (raw text plus the outcome
of loading it), and the local credential file looked up by path. -/
structure CredEnv where
  secretFile : SourceState
  envJsonRaw : Option PyStr
  envJsonSrc : SourceState
  localPathVar : Option PyStr
  localFile : PyStr → SourceState

/-- The guard `if creds_json and creds_json.strip():` on the
environment-variable source. -/
def envJsonUsable (e : CredEnv) : Bool :=
  match e.envJsonRaw with
  | none => false
  | some s => !s.isEmpty && !(pyStrip s).isEmpty

/-- `os.getenv('GOOGLE_CREDENTIALS_PATH', 'credentials.json')`. -/
def localCredsPath (e : CredEnv) : PyStr :=
  e.localPathVar.getD (pys "credentials.json")

/-- Embedding of `get_google_sheets_client`: try the Render secret
file, then the environment JSON, then the local file; each source that
is absent or malformed falls through to the next; with no source left
the Python code raises `ValueError` (modelled as `none`). -/
def get_google_sheets_client (e : CredEnv) : Option Client :=
  match srcClient e.secretFile with
  | some c => some c
  | none =>
    match srcClient (if envJsonUsable e then e.envJsonSrc else .absent) with
    | some c => some c
    | none =>
      match srcClient (e.localFile (localCredsPath e)) with
      | some c => some c
      | none => none

/-- A worksheet: title, grid dimensions, and the populated cell rows
(row `i+1` of the sheet is `content[i]`; rows beyond `content` are
empty). -/
structure Worksheet where
  title : PyStr
  nrows : Nat
  ncols : Nat
  content : List (List PyStr)
deriving DecidableEq

/-- A spreadsheet as the handler observes it: its title, the result of
`spreadsheet.worksheet('Bookings')` and of `spreadsheet.sheet1`
(`none` models the raised `WorksheetNotFound` / lookup failure). -/
structure Spreadsheet where
  title : PyStr
  bookingsWs : Option Worksheet
  firstWs : Option Worksheet
deriving DecidableEq

/-- The outcome of `gc.open_by_key(spreadsheet_id)`: success, the
`SpreadsheetNotFound` exception, an `APIError` carrying its message
text, or any other exception. -/
inductive OpenResult where
  | ok (ss : Spreadsheet)
  | notFound
  | apiError (msg : PyStr)
  | otherFailure (msg : PyStr)
deriving DecidableEq

/-- A server-clock reading, as consumed by
`datetime.now().strftime('%Y-%m-%d %H:%M:%S')`. -/
structure DateTime where
  year : Nat
  month : Nat
  day : Nat
  hour : Nat
  minute : Nat
  second : Nat
deriving DecidableEq

/-- Zero-padded decimal rendering, per `strftime` field semantics. -/
def padZeros (w : Nat) (n : Nat) : PyStr :=
  let d := Nat.toDigits 10 n
  List.replicate (w - d.length) '0' ++ d

/-- Embedding of `datetime.now().strftime('%Y-%m-%d %H:%M:%S')`. -/
def formatTimestamp (t : DateTime) : PyStr :=
  padZeros 4 t.year ++ pys "-" ++ padZeros 2 t.month ++ pys "-" ++ padZeros 2 t.day
    ++ pys " " ++ padZeros 2 t.hour ++ pys ":" ++ padZeros 2 t.minute
    ++ pys ":" ++ padZeros 2 t.second

/-- `timestamp.replace('-', '').replace(':', '').replace(' ', '')` as
used to build the booking id. -/
def compactTimestamp (ts : PyStr) : PyStr :=
  ts.filter (fun c => !(c == '-' || c == ':' || c == ' '))

/-- The HTTP methods routed to `submit_booking`. -/
inductive Method where
  | options
  | post
deriving DecidableEq

/-- The full environment one invocation of `submit_booking` reads. -/
structure Env where
  method : Method
  body : Option Body
  creds : CredEnv
  spreadsheetIdVar : Option PyStr
  openResult : OpenResult
  headerCheckFails : Bool
  headerAppendFails : Bool
  appendFailure : Option PyStr
  now : DateTime

/-- A value appearing in a JSON response produced by `jsonify`. -/
inductive RVal where
  | rbool (b : Bool)
  | rint (n : Int)
  | rstr (s : PyStr)
  | rlist (xs : List PyStr)
deriving DecidableEq

/-- A structured JSON response: HTTP status plus the jsonified dict. -/
structure Response where
  status : Nat
  body : List (PyStr × RVal)
deriving DecidableEq

/-- Lookup of a key in a response body (responses carry no duplicate
keys). -/
def lookupResp : List (PyStr × RVal) → PyStr → Option RVal
  | [], _ => none
  | p :: rest, k => if p.1 == k then some p.2 else lookupResp rest k

/-- The externally visible calls `submit_booking` makes, in order. -/
inductive Effect where
  | resolveCredentials
  | openSpreadsheet (id : PyStr)
  | fetchWorksheet
  | readHeaderRow
  | writeHeaderRow
  | appendRowCall (row : List PyStr)
  | readAllValues
deriving DecidableEq

/-- The result of one handler invocation: the HTTP response, the trace
of external calls, and the final state of the worksheet it touched. -/
structure Outcome where
  response : Response
  effects : List Effect
  finalWs : Option Worksheet
deriving DecidableEq

/-- Model of `spreadsheet_id.strip()` followed by
`spreadsheet_id.split('#')[0]` when a `#` is present (lines 159-161). -/
def cleanSpreadsheetId (s : PyStr) : PyStr :=
  let t := pyStrip s
  if hasHash t then takeBeforeHash t else t

/-- Worksheet selection (lines 236-251): use `Bookings` if it exists,
else the first worksheet, else create a fresh 1000 x 10 `Bookings`
worksheet.  No branch renames an existing worksheet. -/
def getOrCreateWorksheet (ss : Spreadsheet) : Worksheet :=
  match ss.bookingsWs with
  | some ws => ws
  | none =>
    match ss.firstWs with
    | some ws => ws
    | none => { title := pys "Bookings", nrows := 1000, ncols := 10, content := [] }

/-- A worksheet row with no populated cell, as the sheet API sees it. -/
def rowIsEmpty (r : List PyStr) : Bool := r.all (fun c => c.isEmpty)

/-- gspread values read back for a row: trailing empty cells trimmed. -/
def dropTrailingEmptyCells (r : List PyStr) : List PyStr :=
  (r.reverse.dropWhile (fun c => c.isEmpty)).reverse

/-- gspread tables end at the last non-empty row. -/
def dropTrailingEmptyRows (rows : List (List PyStr)) : List (List PyStr) :=
  (rows.reverse.dropWhile rowIsEmpty).reverse

/-- `worksheet.row_values(1)`: the populated cells of row 1. -/
def rowValues1 (ws : Worksheet) : List PyStr :=
  dropTrailingEmptyCells (ws.content.headD [])

/-- The expected header row (line 256). -/
def expectedHeaders : List PyStr :=
  [pys "Name", pys "Phone", pys "Time", pys "Location", pys "Timestamp", pys "Status"]

/-- The header test of line 258: `not headers or headers[0] != 'Name'`. -/
def shouldWriteHeaders (ws : Worksheet) : Bool :=
  match rowValues1 ws with
  | [] => true
  | c :: _ => c != pys "Name"

/-- `worksheet.update('A1:F1', [expected_headers], ...)`: overwrite the
first six cells of row 1, keeping any cells beyond column F. -/
def writeHeaderRow1 (ws : Worksheet) : Worksheet :=
  { ws with content :=
      match ws.content with
      | [] => [expectedHeaders]
      | r0 :: rest => (expectedHeaders ++ r0.drop 6) :: rest }

/-- `worksheet.append_row(row, ...)`: append immediately after the last
non-empty row. -/
def appendRow (ws : Worksheet) (row : List PyStr) : Worksheet :=
  { ws with content := dropTrailingEmptyRows ws.content ++ [row] }

/-- `worksheet.get_all_values()`: every row up to the last non-empty
one. -/
def getAllValues (ws : Worksheet) : List (List PyStr) :=
  dropTrailingEmptyRows ws.content

/-- The header-assurance step on the normal path (lines 254-260). -/
def ensureHeaders (ws : Worksheet) : Worksheet :=
  if shouldWriteHeaders ws then writeHeaderRow1 ws else ws

/-- The data row built for one booking (lines 271-278). -/
def bookingRow (bk : BookingData) (ts : PyStr) : List PyStr :=
  [bk.name, bk.phone, bk.bookingTime, bk.location, ts, pys "Submitted"]

/-- One successful booking applied to a worksheet: header assurance
followed by the row append. -/
def processBooking (bk : BookingData) (ts : PyStr) (ws : Worksheet) : Worksheet :=
  appendRow (ensureHeaders ws) (bookingRow bk ts)

/-- The header-assurance step with its failure fallback (lines
254-267): when reading row 1 raises, the code tries to `append_row` the
header instead, swallowing a second failure. -/
def ensureHeadersStep (e : Env) (ws : Worksheet) : Worksheet × List Effect :=
  if e.headerCheckFails then
    if e.headerAppendFails then (ws, [.readHeaderRow])
    else (appendRow ws expectedHeaders, [.readHeaderRow, .appendRowCall expectedHeaders])
  else
    if shouldWriteHeaders ws then (writeHeaderRow1 ws, [.readHeaderRow, .writeHeaderRow])
    else (ws, [.readHeaderRow])

/-- The test `'PERMISSION_DENIED' in error_msg.upper() or '403' in
error_msg` (line 194). -/
def permissionSignal (msg : PyStr) : Bool :=
  isSub (pys "PERMISSION_DENIED") (pyUpper msg) || isSub (pys "403") msg

/-- The test `'disabled' in error_msg.lower() or 'not enabled' in
error_msg.lower()` (line 209). -/
def disabledSignal (msg : PyStr) : Bool :=
  isSub (pys "disabled") (pyLower msg) || isSub (pys "not enabled") (pyLower msg)

/-- The CORS-preflight response body (line 110). -/
def optionsBody : List (PyStr × RVal) :=
  [(pys "status", .rstr (pys "ok"))]

/-- The empty-body response (line 122). -/
def noJsonBody : List (PyStr × RVal) :=
  [(pys "error", .rstr (pys "No JSON data received"))]

/-- The validation-failure response (lines 136-139). -/
def missingFieldsBody (missing : List PyStr) : List (PyStr × RVal) :=
  [(pys "error", .rstr (pys "Missing required fields: " ++ joinCommaSpace missing)),
   (pys "required_fields", .rlist requiredFields)]

/-- The message of the `ValueError` raised when no credential source
works (lines 94-99). -/
def credsErrorMsg : PyStr :=
  pys "❌ No valid Google credentials found. Please configure:\n1. Upload credentials.json to Render as a Secret File, OR\n2. Set GOOGLE_CREDENTIALS_JSON environment variable, OR\n3. Place credentials.json in the project root for local development"

/-- The configuration-error response (lines 309-315). -/
def configErrorBody : List (PyStr × RVal) :=
  [(pys "error", .rstr (pys "Google Sheets configuration error")),
   (pys "details", .rstr credsErrorMsg),
   (pys "help", .rstr (pys "Check your credentials configuration on Render"))]

/-- The missing-spreadsheet-id response (line 156). -/
def noSpreadsheetIdBody : List (PyStr × RVal) :=
  [(pys "error", .rstr (pys "Google Spreadsheet ID not configured"))]

/-- The `SpreadsheetNotFound` response (lines 176-181). -/
def notFoundBody (sid : PyStr) : List (PyStr × RVal) :=
  [(pys "error", .rstr (pys "Spreadsheet not found with ID: " ++ sid)),
   (pys "help", .rstr (pys "Check your GOOGLE_SPREADSHEET_ID environment variable"))]

/-- The remediation step list of the permission-denied response (lines
200-206). -/
def permissionSteps (email sid : PyStr) : List PyStr :=
  [pys "1. Open your spreadsheet: https://docs.google.com/spreadsheets/d/" ++ sid ++ pys "/edit",
   pys "2. Click the \"Share\" button (top-right)",
   pys "3. Add this email: " ++ email,
   pys "4. Select \"Editor\" access",
   pys "5. Click \"Send\""]

/-- The permission-denied response (lines 196-207). -/
def permissionDeniedBody (email sid : PyStr) : List (PyStr × RVal) :=
  [(pys "error", .rstr (pys "Permission denied")),
   (pys "details", .rstr (pys "Spreadsheet is not shared with the service account.")),
   (pys "solution", .rstr (pys "Please share the spreadsheet with: " ++ email)),
   (pys "steps", .rlist (permissionSteps email sid))]

/-- The remediation step list of the API-disabled response (lines
213-219). -/
def apiDisabledSteps : List PyStr :=
  [pys "1. Go to: https://console.cloud.google.com/apis/library/sheets.googleapis.com",
   pys "2. Select your project: \"nortiq-mineka-hokkaido\"",
   pys "3. Click \"Enable\"",
   pys "4. Wait a few minutes",
   pys "5. Also enable Google Drive API: https://console.cloud.google.com/apis/library/drive.googleapis.com"]

/-- The API-disabled response (lines 210-220). -/
def apiDisabledBody : List (PyStr × RVal) :=
  [(pys "error", .rstr (pys "Google Sheets API is not enabled")),
   (pys "solution", .rstr (pys "Enable the Google Sheets API in Google Cloud Console")),
   (pys "steps", .rlist apiDisabledSteps)]

/-- The generic API-error response (lines 223-226). -/
def apiErrorBody (msg : PyStr) : List (PyStr × RVal) :=
  [(pys "error", .rstr (pys "Google Sheets API error: " ++ msg)),
   (pys "help", .rstr (pys "Check your Google Cloud project configuration"))]

/-- The unexpected-open-failure response (lines 230-233). -/
def openFailedBody (msg : PyStr) : List (PyStr × RVal) :=
  [(pys "error", .rstr (pys "Failed to access spreadsheet: " ++ msg)),
   (pys "help", .rstr (pys "Check your spreadsheet ID and internet connection"))]

/-- The append-failure response (lines 304-307). -/
def saveFailedBody (msg : PyStr) : List (PyStr × RVal) :=
  [(pys "error", .rstr (pys "Failed to save booking to spreadsheet: " ++ msg)),
   (pys "help", .rstr (pys "Check if the worksheet is writable"))]

/-- The catch-all response (lines 319-323); the exception message is
abstracted. -/
def internalErrorBody (msg : PyStr) : List (PyStr × RVal) :=
  [(pys "error", .rstr (pys "Internal server error")),
   (pys "details", .rstr msg),
   (pys "help", .rstr (pys "Check server logs for more information"))]

/-- The success response (lines 291-300). -/
def successBody (ts : PyStr) (rowNumber : Int) (title email sid : PyStr) :
    List (PyStr × RVal) :=
  [(pys "success", .rbool true),
   (pys "message", .rstr (pys "✅ Booking submitted successfully!")),
   (pys "booking_id", .rstr (pys "BK" ++ compactTimestamp ts)),
   (pys "timestamp", .rstr ts),
   (pys "row_number", .rint rowNumber),
   (pys "spreadsheet", .rstr title),
   (pys "service_account", .rstr email),
   (pys "spreadsheet_url", .rstr (pys "https://docs.google.com/spreadsheets/d/" ++ sid))]

/-- An outcome that touched no worksheet. -/
def pureOutcome (status : Nat) (body : List (PyStr × RVal)) (effects : List Effect) : Outcome :=
  { response := { status := status, body := body }, effects := effects, finalWs := none }

/-- The write phase once a spreadsheet is open (lines 236-307):
worksheet selection, header assurance, append and row count. -/
def worksheetStage (e : Env) (bk : BookingData) (client : Client) (sid : PyStr)
    (ss : Spreadsheet) : Outcome :=
  let ws := getOrCreateWorksheet ss
  let step := ensureHeadersStep e ws
  let ts := formatTimestamp e.now
  let row := bookingRow bk ts
  let baseEffects := [Effect.resolveCredentials, Effect.openSpreadsheet sid,
    Effect.fetchWorksheet] ++ step.2
  match e.appendFailure with
  | some m =>
    { response := { status := 500, body := saveFailedBody m },
      effects := baseEffects ++ [.appendRowCall row],
      finalWs := some step.1 }
  | none =>
    let ws2 := appendRow step.1 row
    let rowNumber : Int := (getAllValues ws2).length
    { response := { status := 200, body := successBody ts rowNumber ss.title client.email sid },
      effects := baseEffects ++ [.appendRowCall row, .readAllValues],
      finalWs := some ws2 }

/-- The open phase (lines 165-233): open the spreadsheet and classify
failures, then hand over to the write phase. -/
def openStage (e : Env) (bk : BookingData) (client : Client) (sid : PyStr) : Outcome :=
  let pre := [Effect.resolveCredentials, Effect.openSpreadsheet sid]
  match e.openResult with
  | .notFound => pureOutcome 404 (notFoundBody sid) pre
  | .apiError msg =>
    if permissionSignal msg then
      pureOutcome 403 (permissionDeniedBody client.email sid) pre
    else if disabledSignal msg then
      pureOutcome 403 apiDisabledBody pre
    else
      pureOutcome 500 (apiErrorBody msg) pre
  | .otherFailure msg => pureOutcome 500 (openFailedBody msg) pre
  | .ok ss => worksheetStage e bk client sid ss

/-- Embedding of `submit_booking` (lines 101-323).  OPTIONS requests
short-circuit; POST requests run parse, validation, credential
resolution, spreadsheet-id cleaning, open, and write, every failure
being converted to a structured response. -/
def submit_booking (e : Env) : Outcome :=
  match e.method with
  | .options => pureOutcome 200 optionsBody []
  | .post =>
    match e.body with
    | none => pureOutcome 400 noJsonBody []
    | some data =>
      if data.truthy = false then pureOutcome 400 noJsonBody []
      else
        match computeMissing data requiredFields with
        | .error m => pureOutcome 500 (internalErrorBody m) []
        | .ok missing =>
          if missing.isEmpty = false then
            pureOutcome 400 (missingFieldsBody missing) []
          else
            match buildBookingData data with
            | .error m => pureOutcome 500 (internalErrorBody m) []
            | .ok bk =>
              match get_google_sheets_client e.creds with
              | none => pureOutcome 500 configErrorBody [.resolveCredentials]
              | some client =>
                match e.spreadsheetIdVar with
                | none => pureOutcome 500 noSpreadsheetIdBody [.resolveCredentials]
                | some rawId =>
                  if rawId.isEmpty then
                    pureOutcome 500 noSpreadsheetIdBody [.resolveCredentials]
                  else
                    openStage e bk client (cleanSpreadsheetId rawId)

/-- The condition under which the validation loop flags a field of an
object body: absent from the dict, or blank after `str(...).strip()`. -/
def dictFieldMissing (fs : List (PyStr × PyVal)) (f : PyStr) : Bool :=
  match dictGetLast fs f with
  | none => true
  | some v => (pyStrip (pyValStr v)).isEmpty

/-- The number of non-empty rows of a worksheet's content. -/
def countNonEmptyRows (rows : List (List PyStr)) : Nat :=
  (rows.filter (fun r => !rowIsEmpty r)).length

/-- Whether a response value textually contains `pat` (directly or in a
list entry). -/
def rvalHasSub (v : RVal) (pat : PyStr) : Bool :=
  match v with
  | .rstr s => isSub pat s
  | .rlist xs => xs.any (fun s => isSub pat s)
  | _ => false

/-- Whether any value of a response body textually contains `pat`. -/
def respHasSub (body : List (PyStr × RVal)) (pat : PyStr) : Bool :=
  body.any (fun p => rvalHasSub p.2 pat)

/-- A credential environment in which every source is absent. -/
def credAbsent : CredEnv :=
  { secretFile := .absent, envJsonRaw := none, envJsonSrc := .absent,
    localPathVar := none, localFile := fun _ => .absent }

/-- The service-account email used in the concrete scenarios. -/
def svcEmail : PyStr :=
  pys "mineka-google-sheets@nortiq-mineka-hokkaido.iam.gserviceaccount.com"

/-- A credential environment whose Render secret file authenticates. -/
def credValid : CredEnv :=
  { secretFile := .valid ⟨svcEmail⟩, envJsonRaw := none, envJsonSrc := .absent,
    localPathVar := none, localFile := fun _ => .absent }

/-- A sample server-clock reading. -/
def dtSample : DateTime := ⟨2024, 5, 1, 10, 0, 7⟩

/-- The well-formed example body of the specification. -/
def goodBodyFields : List (PyStr × PyVal) :=
  [(pys "name", .vstr (pys "Jane Doe")), (pys "phone", .vstr (pys "555-0100")),
   (pys "time", .vstr (pys "2024-05-01 10:00")), (pys "location", .vstr (pys "Tokyo"))]

/-- The well-formed example body, as a parsed request body. -/
def goodBody : Body := .bdict goodBodyFields

/-- A fresh, fully empty `Bookings` worksheet. -/
def freshBookingsWs : Worksheet :=
  { title := pys "Bookings", nrows := 1000, ncols := 10, content := [] }

/-- A spreadsheet whose `Bookings` worksheet exists and is fresh. -/
def sampleSpreadsheet : Spreadsheet :=
  { title := pys "MySheet", bookingsWs := some freshBookingsWs, firstWs := none }

/-- A fully healthy environment for a POST of the example body. -/
def envBase : Env :=
  { method := .post, body := some goodBody, creds := credValid,
    spreadsheetIdVar := some (pys "abc123"), openResult := .ok sampleSpreadsheet,
    headerCheckFails := false, headerAppendFails := false,
    appendFailure := none, now := dtSample }

/-- A request body whose `name` is JSON `null` and whose other required
fields are present and non-blank. -/
def nullFieldBody : Body :=
  .bdict [(pys "name", .vnull), (pys "phone", .vstr (pys "555-0100")),
          (pys "time", .vstr (pys "2024-05-01 10:00")), (pys "location", .vstr (pys "Tokyo"))]

/-- The null-name body posted against a server with no credential
source configured. -/
def envNullField : Env :=
  { envBase with body := some nullFieldBody, creds := credAbsent }

/-- A healthy environment in which opening the spreadsheet raises an
`APIError` whose message reports the Sheets API as disabled. -/
def envDisabled : Env :=
  { envBase with openResult := .apiError (pys "Google Sheets API is disabled for this project") }

/-- A spreadsheet with no `Bookings` worksheet whose first worksheet
still bears the default title `Sheet1`. -/
def sheet1Spreadsheet : Spreadsheet :=
  { title := pys "T", bookingsWs := none,
    firstWs := some { title := pys "Sheet1", nrows := 100, ncols := 26, content := [] } }

/-- A body carrying only a whitespace-only `name`. -/
def blankNameFields : List (PyStr × PyVal) :=
  [(pys "name", .vstr (pys "  "))]

/-- The whitespace-only-name body posted against the healthy server. -/
def envBlankName : Env :=
  { envBase with body := some (.bdict blankNameFields) }

/-- The healthy environment stripped of every credential source. -/
def envNoCreds : Env :=
  { envBase with creds := credAbsent }

/-- The healthy environment where opening raises `SpreadsheetNotFound`. -/
def envNotFound : Env :=
  { envBase with openResult := .notFound }

/-- The healthy environment where opening raises a permission-denied
`APIError`. -/
def envPermDenied : Env :=
  { envBase with openResult := .apiError (pys "PERMISSION_DENIED: the caller lacks access") }

/-- The cleaned booking data of the example body. -/
def bkGood : BookingData :=
  ⟨pys "Jane Doe", pys "555-0100", pys "2024-05-01 10:00", pys "Tokyo"⟩

/-- A `Bookings` worksheet holding a header row, an interior blank row,
and one data row. -/
def gapWs : Worksheet :=
  { title := pys "Bookings", nrows := 1000, ncols := 10,
    content := [expectedHeaders, [],
      [pys "Ann", pys "555-1", pys "noon", pys "Oslo", pys "t0", pys "Submitted"]] }

/-- A spreadsheet whose `Bookings` worksheet contains an interior blank
row. -/
def gapSpreadsheet : Spreadsheet :=
  { title := pys "MySheet", bookingsWs := some gapWs, firstWs := none }

/-- The healthy environment writing into the worksheet with the
interior blank row. -/
def envGap : Env :=
  { envBase with openResult := .ok gapSpreadsheet }

/-
Helper lemmas.
-/

theorem dropWhile_eq_self_of_all {α : Type} {p : α → Bool} {l : List α}
    (h : ∀ x ∈ l, p x = false) : l.dropWhile p = l := by
  cases l with
  | nil => rfl
  | cons a as =>
    rw [List.dropWhile_cons]
    simp [h a (List.mem_cons_self a as)]

theorem dropTrailingEmptyRows_eq_self {rows : List (List PyStr)}
    (h : ∀ r ∈ rows, rowIsEmpty r = false) : dropTrailingEmptyRows rows = rows := by
  unfold dropTrailingEmptyRows
  rw [dropWhile_eq_self_of_all, List.reverse_reverse]
  intro x hx
  exact h x (List.mem_reverse.mp hx)

theorem rowIsEmpty_expectedHeaders : rowIsEmpty expectedHeaders = false := by decide

theorem rowIsEmpty_bookingRow (bk : BookingData) (ts : PyStr) :
    rowIsEmpty (bookingRow bk ts) = false := by
  have h : (pys "Submitted").isEmpty = false := by decide
  simp [rowIsEmpty, bookingRow, h]

theorem rowIsEmpty_append_left {a b : List PyStr} (h : rowIsEmpty a = false) :
    rowIsEmpty (a ++ b) = false := by
  simp only [rowIsEmpty, List.all_append]
  simp only [rowIsEmpty] at h
  simp [h]

theorem countNonEmptyRows_eq_length {rows : List (List PyStr)}
    (h : ∀ r ∈ rows, rowIsEmpty r = false) : countNonEmptyRows rows = rows.length := by
  unfold countNonEmptyRows
  rw [List.filter_eq_self.mpr]
  intro a ha
  simp [h a ha]

theorem isPrefixMatch_refl (l : List Char) : isPrefixMatch l l = true := by
  induction l with
  | nil => rfl
  | cons a as ih => simp [isPrefixMatch, ih]

theorem isSub_append_self (pre pat : PyStr) : isSub pat (pre ++ pat) = true := by
  induction pre with
  | nil =>
    cases pat with
    | nil => rfl
    | cons a as => simp [isSub, isPrefixMatch_refl]
  | cons b bs ih => simp [isSub, ih]

theorem hasHash_takeBeforeHash (s : PyStr) : hasHash (takeBeforeHash s) = false := by
  induction s with
  | nil => rfl
  | cons c cs ih =>
    by_cases h : c = '#'
    · simp [takeBeforeHash, h, hasHash]
    · simp [takeBeforeHash, h, hasHash, ih]

theorem takeBeforeHash_eq_self {s : PyStr} (h : hasHash s = false) : takeBeforeHash s = s := by
  induction s with
  | nil => rfl
  | cons c cs ih =>
    simp only [hasHash, Bool.or_eq_false_iff, decide_eq_false_iff_not] at h
    simp [takeBeforeHash, h.1, ih h.2]

theorem cleanSpreadsheetId_eq (s : PyStr) :
    cleanSpreadsheetId s = takeBeforeHash (pyStrip s) := by
  unfold cleanSpreadsheetId
  cases h : hasHash (pyStrip s) with
  | true => simp [h]
  | false => simp [h, takeBeforeHash_eq_self h]

theorem hasHash_cleanSpreadsheetId (s : PyStr) : hasHash (cleanSpreadsheetId s) = false := by
  rw [cleanSpreadsheetId_eq]
  exact hasHash_takeBeforeHash _

/-
Claim C7.
-/

/-- C7 counterexample: cleaning is not idempotent.  On the input
`"abc #gid=0"` the first pass yields `"abc "` (the whitespace before
the `#` survives, because stripping happens before the split), and a
second pass strips it to `"abc"`, so applying the cleaning function to
an already-cleaned identifier can change it. -/
theorem cleanSpreadsheetId_not_idempotent :
    cleanSpreadsheetId (pys "abc #gid=0") = pys "abc " ∧
    cleanSpreadsheetId (cleanSpreadsheetId (pys "abc #gid=0")) = pys "abc" ∧
    cleanSpreadsheetId (cleanSpreadsheetId (pys "abc #gid=0")) ≠
      cleanSpreadsheetId (pys "abc #gid=0") :=
  ⟨by decide, by decide, by decide⟩

/-- C7 (amended): spreadsheet-identifier cleaning strips everything
from the first `#` onward after trimming surrounding whitespace, the
result never contains `#`, `"abc123#gid=0"` and `"abc123"` resolve to
the same identifier, and cleaning is idempotent on every identifier
that is already free of surrounding whitespace (in particular whenever
no whitespace immediately precedes the first `#`). -/
theorem cleanSpreadsheetId_behavior (s : PyStr) :
    cleanSpreadsheetId s = takeBeforeHash (pyStrip s) ∧
    hasHash (cleanSpreadsheetId s) = false ∧
    (pyStrip (cleanSpreadsheetId s) = cleanSpreadsheetId s →
      cleanSpreadsheetId (cleanSpreadsheetId s) = cleanSpreadsheetId s) ∧
    cleanSpreadsheetId (pys "abc123#gid=0") = cleanSpreadsheetId (pys "abc123") := by
  refine ⟨cleanSpreadsheetId_eq s, hasHash_cleanSpreadsheetId s, ?_, by decide⟩
  intro h
  rw [cleanSpreadsheetId_eq (cleanSpreadsheetId s), h,
    takeBeforeHash_eq_self (hasHash_cleanSpreadsheetId s)]

/-- Witness for the amended C7 theorem at concrete identifiers. -/
theorem cleanSpreadsheetId_behavior_witness :
    cleanSpreadsheetId (pys "abc123#gid=0") = takeBeforeHash (pyStrip (pys "abc123#gid=0")) ∧
    cleanSpreadsheetId (cleanSpreadsheetId (pys "xyz")) = cleanSpreadsheetId (pys "xyz") ∧
    cleanSpreadsheetId (pys "abc123#gid=0") = cleanSpreadsheetId (pys "abc123") :=
  ⟨(cleanSpreadsheetId_behavior (pys "abc123#gid=0")).1,
   (cleanSpreadsheetId_behavior (pys "xyz")).2.2.1 (by decide),
   (cleanSpreadsheetId_behavior (pys "abc123#gid=0")).2.2.2⟩

/-
Claim C4.
-/

/-- C4 counterexample: when `Bookings` is absent the handler uses the
first worksheet as-is; even though this worksheet still bears the
default title `Sheet1`, no rename to `Bookings` happens anywhere. -/
theorem worksheet_fallback_does_not_rename :
    (getOrCreateWorksheet sheet1Spreadsheet).title = pys "Sheet1" ∧
    pys "Sheet1" ≠ pys "Bookings" :=
  ⟨rfl, by decide⟩

/-- C4 (amended): when `Bookings` is absent the handler falls back to
the first existing worksheet without renaming it (its title is kept
whatever it is); when no first worksheet is available either, it
creates a fresh worksheet titled `Bookings` with exactly 1000 rows and
10 columns. -/
theorem worksheet_fallback_behavior (ss : Spreadsheet) :
    (∀ w, ss.bookingsWs = some w → getOrCreateWorksheet ss = w) ∧
    (∀ w, ss.bookingsWs = none → ss.firstWs = some w →
      getOrCreateWorksheet ss = w ∧ (getOrCreateWorksheet ss).title = w.title) ∧
    (ss.bookingsWs = none → ss.firstWs = none →
      getOrCreateWorksheet ss =
        { title := pys "Bookings", nrows := 1000, ncols := 10, content := [] }) := by
  refine ⟨?_, ?_, ?_⟩ <;> intros <;> simp_all [getOrCreateWorksheet]

/-- Witness for the amended C4 theorem at concrete spreadsheets. -/
theorem worksheet_fallback_behavior_witness :
    getOrCreateWorksheet sampleSpreadsheet = freshBookingsWs ∧
    getOrCreateWorksheet { title := pys "T", bookingsWs := none, firstWs := none } =
      { title := pys "Bookings", nrows := 1000, ncols := 10, content := [] } :=
  ⟨(worksheet_fallback_behavior sampleSpreadsheet).1 freshBookingsWs rfl,
   (worksheet_fallback_behavior _).2.2 rfl rfl⟩

/-
Claim C8.
-/

/-- C8: an OPTIONS request short-circuits to the status-only `200`
response no matter the configuration, the body, or the collaborator
states, performing no validation and making no external call. -/
theorem options_short_circuit (e : Env) (h : e.method = .options) :
    submit_booking e = pureOutcome 200 optionsBody [] := by
  unfold submit_booking
  rw [h]

/-- Witness for the C8 theorem at a concrete environment. -/
theorem options_short_circuit_witness :
    submit_booking { envBase with method := .options } = pureOutcome 200 optionsBody [] :=
  options_short_circuit _ rfl

/-
Claim C10.
-/

/-- C10: a body that fails to parse, or parses to a falsy value — the
empty object included — draws the generic `No JSON data received` 400
response, which does not list the four required fields. -/
theorem falsy_body_generic_error (e : Env) (h : e.method = .post)
    (hb : e.body = none ∨ ∃ v, e.body = some v ∧ v.truthy = false) :
    (submit_booking e).response.status = 400 ∧
    (submit_booking e).response.body = noJsonBody ∧
    lookupResp (submit_booking e).response.body (pys "error")
      = some (.rstr (pys "No JSON data received")) ∧
    lookupResp (submit_booking e).response.body (pys "required_fields") = none ∧
    Body.truthy (.bdict []) = false := by
  have hq : submit_booking e = pureOutcome 400 noJsonBody [] := by
    unfold submit_booking
    rw [h]
    rcases hb with hb | ⟨v, hv, ht⟩
    · rw [hb]
    · rw [hv]
      simp [ht]
  rw [hq]
  exact ⟨rfl, rfl, by decide, by decide, rfl⟩

/-- Witness for the C10 theorem at the empty-object body. -/
theorem falsy_body_generic_error_witness :
    (submit_booking { envBase with body := some (.bdict []) }).response.status = 400 ∧
    (submit_booking { envBase with body := some (.bdict []) }).response.body = noJsonBody := by
  have h := falsy_body_generic_error { envBase with body := some (.bdict []) } rfl
    (.inr ⟨.bdict [], rfl, rfl⟩)
  exact ⟨h.1, h.2.1⟩

/-
Claim C1.
-/

theorem dictGetLast_eq_none_iff (fs : List (PyStr × PyVal)) (f : PyStr) :
    dictGetLast fs f = none ↔ fs.any (fun p => p.1 == f) = false := by
  induction fs with
  | nil => simp [dictGetLast]
  | cons p rest ih =>
    cases h : dictGetLast rest f with
    | some v =>
      have hr : ¬ rest.any (fun p => p.1 == f) = false := by
        intro hf
        rw [← ih, h] at hf
        exact Option.noConfusion hf
      simp only [dictGetLast, h, List.any_cons, Bool.or_eq_false_iff]
      constructor
      · intro hx
        exact Option.noConfusion hx
      · intro hx
        exact absurd hx.2 hr
    | none =>
      have hr : rest.any (fun p => p.1 == f) = false := ih.mp h
      simp only [dictGetLast, h, List.any_cons, Bool.or_eq_false_iff]
      cases hp : (p.1 == f) with
      | true =>
        rw [if_pos rfl]
        constructor
        · intro hx
          exact Option.noConfusion hx
        · rintro ⟨hf, -⟩
          exact Bool.noConfusion hf
      | false =>
        rw [if_neg (fun hx => Bool.noConfusion hx)]
        exact ⟨fun _ => ⟨rfl, hr⟩, fun _ => rfl⟩

theorem fieldMissing_bdict (fs : List (PyStr × PyVal)) (f : PyStr) :
    fieldMissing (.bdict fs) f = .ok (dictFieldMissing fs f) := by
  unfold fieldMissing dictFieldMissing
  cases h : dictGetLast fs f with
  | none =>
    have ha : fs.any (fun p => p.1 == f) = false := (dictGetLast_eq_none_iff fs f).1 h
    simp [bodyContains, bodyGet, ha, h, Bind.bind, Except.bind, Pure.pure, Except.pure]
  | some v =>
    have ha : fs.any (fun p => p.1 == f) = true := by
      cases hb : fs.any (fun p => p.1 == f) with
      | true => rfl
      | false =>
        rw [← dictGetLast_eq_none_iff] at hb
        rw [h] at hb
        exact Option.noConfusion hb
    simp [bodyContains, bodyGet, ha, h, Bind.bind, Except.bind, Pure.pure, Except.pure]

theorem computeMissing_bdict (fs : List (PyStr × PyVal)) (l : List PyStr) :
    computeMissing (.bdict fs) l = .ok (l.filter (fun f => dictFieldMissing fs f)) := by
  induction l with
  | nil => rfl
  | cons f rest ih =>
    simp only [computeMissing, fieldMissing_bdict, ih, List.filter_cons,
      Bind.bind, Except.bind]
    cases h : dictFieldMissing fs f <;> simp [h, Pure.pure, Except.pure]

/-- C1 counterexample: a field present with a JSON `null` value is not
reported as missing, because Python coerces `None` to the non-empty
string `"None"`.  With `name` null and the other three fields supplied,
validation finds no missing field at all and the request proceeds past
the 400 stage (here ending in a 500 configuration error), instead of
the 400 naming `name` that the claim requires. -/
theorem null_field_not_reported_missing :
    computeMissing nullFieldBody requiredFields = .ok [] ∧
    (submit_booking envNullField).response.status = 500 ∧
    (submit_booking envNullField).response.status ≠ 400 :=
  ⟨rfl, rfl, by decide⟩

/-- C1 (amended): for an object body, a required field is reported
missing exactly when it is absent from the object or its value coerces
(via Python `str()`) to a whitespace-only string; a JSON `null` coerces
to the non-empty string `"None"` and therefore counts as present.  When
any field satisfies this condition the handler returns 400 and the
error names every such field — no more, no fewer. -/
theorem validation_reports_exactly_blank_or_absent (e : Env) (fs : List (PyStr × PyVal))
    (hm : e.method = .post) (hb : e.body = some (.bdict fs))
    (ht : Body.truthy (.bdict fs) = true)
    (hmiss : (requiredFields.filter (fun f => dictFieldMissing fs f)).isEmpty = false) :
    (submit_booking e).response.status = 400 ∧
    (submit_booking e).response.body =
      missingFieldsBody (requiredFields.filter (fun f => dictFieldMissing fs f)) ∧
    (∀ f, f ∈ requiredFields.filter (fun f => dictFieldMissing fs f) ↔
      (f ∈ requiredFields ∧
        (dictGetLast fs f = none ∨
          ∃ v, dictGetLast fs f = some v ∧ (pyStrip (pyValStr v)).isEmpty = true))) := by
  have hq : submit_booking e =
      pureOutcome 400
        (missingFieldsBody (requiredFields.filter (fun f => dictFieldMissing fs f))) [] := by
    unfold submit_booking
    rw [hm, hb]
    simp [ht, computeMissing_bdict, hmiss]
  refine ⟨by rw [hq]; rfl, by rw [hq]; rfl, ?_⟩
  intro f
  rw [List.mem_filter]
  constructor
  · rintro ⟨hf, hd⟩
    refine ⟨hf, ?_⟩
    unfold dictFieldMissing at hd
    cases h : dictGetLast fs f with
    | none => exact .inl rfl
    | some v =>
      rw [h] at hd
      exact .inr ⟨v, rfl, hd⟩
  · rintro ⟨hf, hd⟩
    refine ⟨hf, ?_⟩
    unfold dictFieldMissing
    rcases hd with hd | ⟨v, hv, hblank⟩
    · rw [hd]
    · rw [hv]
      exact hblank

/-- Witness for the amended C1 theorem: a whitespace-only `name` with
the other fields absent yields 400, and `phone` is among the reported
missing fields. -/
theorem validation_reports_witness :
    (submit_booking envBlankName).response.status = 400 ∧
    (pys "phone") ∈ requiredFields.filter (fun f => dictFieldMissing blankNameFields f) := by
  have h := validation_reports_exactly_blank_or_absent envBlankName blankNameFields
    rfl rfl (by decide) (by decide)
  exact ⟨h.1, (h.2.2 (pys "phone")).2 ⟨by decide, .inl (by decide)⟩⟩

/-
Claim C6.
-/

/-- C6: credential resolution tries the Render secret file, then the
`GOOGLE_CREDENTIALS_JSON` variable, then the local file at
`GOOGLE_CREDENTIALS_PATH` (default `credentials.json`), in that fixed
order; the first source that succeeds supplies the client; an absent or
malformed source falls through to the next; with no source left the
resolver fails, and the handler converts that failure into the 500
configuration-error response. -/
theorem credential_resolution_order (ce : CredEnv) :
    (∀ c, ce.secretFile = .valid c → get_google_sheets_client ce = some c) ∧
    (∀ c, srcClient ce.secretFile = none → envJsonUsable ce = true →
      ce.envJsonSrc = .valid c → get_google_sheets_client ce = some c) ∧
    (∀ c, srcClient ce.secretFile = none →
      srcClient (if envJsonUsable ce then ce.envJsonSrc else .absent) = none →
      ce.localFile (localCredsPath ce) = .valid c → get_google_sheets_client ce = some c) ∧
    (srcClient ce.secretFile = none →
      srcClient (if envJsonUsable ce then ce.envJsonSrc else .absent) = none →
      srcClient (ce.localFile (localCredsPath ce)) = none →
      get_google_sheets_client ce = none) ∧
    (ce.localPathVar = none → localCredsPath ce = pys "credentials.json") ∧
    (∀ e2 : Env, ∀ data : Body, e2.method = .post → e2.body = some data →
      data.truthy = true →
      computeMissing data requiredFields = .ok [] →
      (∃ bk, buildBookingData data = .ok bk) →
      get_google_sheets_client e2.creds = none →
      (submit_booking e2).response.status = 500 ∧
      (submit_booking e2).response.body = configErrorBody) := by
  refine ⟨?_, ?_, ?_, ?_, ?_, ?_⟩
  · intro c h
    unfold get_google_sheets_client
    rw [h]
    rfl
  · intro c h1 h2 h3
    unfold get_google_sheets_client
    rw [h1, h2, h3]
    rfl
  · intro c h1 h2 h3
    unfold get_google_sheets_client
    rw [h1, h2, h3]
    rfl
  · intro h1 h2 h3
    unfold get_google_sheets_client
    rw [h1, h2, h3]
  · intro h
    simp [localCredsPath, h]
  · intro e2 data hm hb ht hv hbd hc
    obtain ⟨bk, hbk⟩ := hbd
    have hq : submit_booking e2 = pureOutcome 500 configErrorBody [.resolveCredentials] := by
      unfold submit_booking
      rw [hm, hb]
      simp [ht, hv, hbk, hc]
    rw [hq]
    exact ⟨rfl, rfl⟩

/-- Witness for the C6 theorem at concrete credential environments. -/
theorem credential_resolution_order_witness :
    get_google_sheets_client credValid = some ⟨svcEmail⟩ ∧
    get_google_sheets_client credAbsent = none ∧
    localCredsPath credAbsent = pys "credentials.json" ∧
    (submit_booking envNoCreds).response.status = 500 ∧
    (submit_booking envNoCreds).response.body = configErrorBody := by
  refine ⟨(credential_resolution_order credValid).1 ⟨svcEmail⟩ rfl,
    (credential_resolution_order credAbsent).2.2.2.1 rfl rfl rfl,
    (credential_resolution_order credAbsent).2.2.2.2.1 rfl, ?_, ?_⟩
  · exact ((credential_resolution_order credAbsent).2.2.2.2.2 envNoCreds goodBody rfl rfl
      (by decide) rfl ⟨bkGood, rfl⟩ rfl).1
  · exact ((credential_resolution_order credAbsent).2.2.2.2.2 envNoCreds goodBody rfl rfl
      (by decide) rfl ⟨bkGood, rfl⟩ rfl).2

/-
Claim C9.
-/

theorem worksheetStage_status (e : Env) (bk : BookingData) (client : Client)
    (sid : PyStr) (ss : Spreadsheet) :
    (worksheetStage e bk client sid ss).response.status = 500 ∨
    (worksheetStage e bk client sid ss).response.status = 200 := by
  unfold worksheetStage
  cases h : e.appendFailure <;> simp [h]

theorem openStage_status (e : Env) (bk : BookingData) (client : Client) (sid : PyStr) :
    (openStage e bk client sid).response.status = 404 ∨
    (openStage e bk client sid).response.status = 403 ∨
    (openStage e bk client sid).response.status = 500 ∨
    (openStage e bk client sid).response.status = 200 := by
  unfold openStage
  cases h : e.openResult with
  | notFound => simp [h, pureOutcome]
  | apiError msg =>
    by_cases hp : permissionSignal msg = true
    · simp [h, hp, pureOutcome]
    · by_cases hd : disabledSignal msg = true
      · simp [h, hp, hd, pureOutcome]
      · simp [h, hp, hd, pureOutcome]
  | otherFailure msg => simp [h, pureOutcome]
  | ok ss =>
    rcases worksheetStage_status e bk client sid ss with h2 | h2 <;> simp [h, h2]

theorem submit_booking_400_cases (e : Env) (hm : e.method = .post) :
    (submit_booking e).effects = [] ∨ (submit_booking e).response.status ≠ 400 := by
  cases hb : e.body with
  | none =>
    have hq : submit_booking e = pureOutcome 400 noJsonBody [] := by
      unfold submit_booking
      rw [hm, hb]
    exact .inl (by rw [hq]; rfl)
  | some data =>
    cases ht : data.truthy with
    | false =>
      have hq : submit_booking e = pureOutcome 400 noJsonBody [] := by
        unfold submit_booking
        rw [hm, hb]
        simp [ht]
      exact .inl (by rw [hq]; rfl)
    | true =>
      cases hcm : computeMissing data requiredFields with
      | error m =>
        have hq : submit_booking e = pureOutcome 500 (internalErrorBody m) [] := by
          unfold submit_booking
          rw [hm, hb]
          simp [ht, hcm]
        exact .inr (by rw [hq]; simp [pureOutcome])
      | ok missing =>
        cases hmiss : missing.isEmpty with
        | false =>
          have hq : submit_booking e = pureOutcome 400 (missingFieldsBody missing) [] := by
            unfold submit_booking
            rw [hm, hb]
            simp [ht, hcm, hmiss]
          exact .inl (by rw [hq]; rfl)
        | true =>
          cases hbd : buildBookingData data with
          | error m =>
            have hq : submit_booking e = pureOutcome 500 (internalErrorBody m) [] := by
              unfold submit_booking
              rw [hm, hb]
              simp [ht, hcm, hmiss, hbd]
            exact .inr (by rw [hq]; simp [pureOutcome])
          | ok bk =>
            cases hc : get_google_sheets_client e.creds with
            | none =>
              have hq : submit_booking e =
                  pureOutcome 500 configErrorBody [.resolveCredentials] := by
                unfold submit_booking
                rw [hm, hb]
                simp [ht, hcm, hmiss, hbd, hc]
              exact .inr (by rw [hq]; simp [pureOutcome])
            | some client =>
              cases hsid : e.spreadsheetIdVar with
              | none =>
                have hq : submit_booking e =
                    pureOutcome 500 noSpreadsheetIdBody [.resolveCredentials] := by
                  unfold submit_booking
                  rw [hm, hb]
                  simp [ht, hcm, hmiss, hbd, hc, hsid]
                exact .inr (by rw [hq]; simp [pureOutcome])
              | some rawId =>
                cases hraw : rawId.isEmpty with
                | true =>
                  have hq : submit_booking e =
                      pureOutcome 500 noSpreadsheetIdBody [.resolveCredentials] := by
                    unfold submit_booking
                    rw [hm, hb]
                    simp [ht, hcm, hmiss, hbd, hc, hsid, hraw]
                  exact .inr (by rw [hq]; simp [pureOutcome])
                | false =>
                  have hq : submit_booking e =
                      openStage e bk client (cleanSpreadsheetId rawId) := by
                    unfold submit_booking
                    rw [hm, hb]
                    simp [ht, hcm, hmiss, hbd, hc, hsid, hraw]
                  rcases openStage_status e bk client (cleanSpreadsheetId rawId)
                      with h4 | h4 | h4 | h4 <;>
                    exact .inr (by rw [hq, h4]; decide)

/-- C9: whenever a POST returns 400 (missing body or failed
validation), the handler has resolved no credentials and made no
spreadsheet API call of any kind, so external spreadsheet state is
untouched on every client-error path. -/
theorem client_error_no_external_calls (e : Env) (hm : e.method = .post)
    (h4 : (submit_booking e).response.status = 400) :
    (submit_booking e).effects = [] := by
  rcases submit_booking_400_cases e hm with h | h
  · exact h
  · exact absurd h4 h

/-- Witness for the C9 theorem at a concrete 400-producing request. -/
theorem client_error_no_external_calls_witness :
    (submit_booking { envBase with body := none }).effects = [] :=
  client_error_no_external_calls _ rfl rfl

/-
Claim C3.
-/

theorem bookingRow_ne_headers (bk : BookingData) (ts : PyStr) :
    bookingRow bk ts ≠ expectedHeaders := by
  intro h
  have h6 : (bookingRow bk ts).drop 5 = expectedHeaders.drop 5 := by rw [h]
  rw [show (bookingRow bk ts).drop 5 = [pys "Submitted"] from rfl] at h6
  exact absurd h6 (by decide)

/-- C3: the header row is written exactly when row 1 is empty or its
first populated cell differs from `Name`; consequently two successful
booking submissions against a fresh worksheet leave exactly one header
row — the second submission sees `Name` in cell A1 and skips the
write. -/
theorem header_assurance_idempotent (ws : Worksheet) (bk1 bk2 : BookingData)
    (ts1 ts2 : PyStr) :
    (shouldWriteHeaders ws = true ↔
      rowValues1 ws = [] ∨ ∃ c rest, rowValues1 ws = c :: rest ∧ c ≠ pys "Name") ∧
    (shouldWriteHeaders ws = false → ensureHeaders ws = ws) ∧
    (shouldWriteHeaders ws = true → ensureHeaders ws = writeHeaderRow1 ws) ∧
    (ws.content = [] →
      (processBooking bk2 ts2 (processBooking bk1 ts1 ws)).content.count expectedHeaders = 1 ∧
      (processBooking bk2 ts2 (processBooking bk1 ts1 ws)).content =
        [expectedHeaders, bookingRow bk1 ts1, bookingRow bk2 ts2]) := by
  refine ⟨?_, ?_, ?_, ?_⟩
  · cases h : rowValues1 ws with
    | nil => simp [shouldWriteHeaders, h]
    | cons c rest =>
      simp only [shouldWriteHeaders, h, bne_iff_ne]
      constructor
      · intro hb
        exact .inr ⟨c, rest, rfl, hb⟩
      · rintro (habs | ⟨c2, rest2, heq, hne⟩)
        · exact absurd habs (by simp)
        · injection heq with heq1 heq2
          rw [heq1]
          exact hne
  · intro h
    simp [ensureHeaders, h]
  · intro h
    simp [ensureHeaders, h]
  · intro hfresh
    have hrow1 : rowIsEmpty (bookingRow bk1 ts1) = false := rowIsEmpty_bookingRow bk1 ts1
    have hsw : shouldWriteHeaders ws = true := by
      simp [shouldWriteHeaders, rowValues1, hfresh, dropTrailingEmptyCells]
    have hwc : (writeHeaderRow1 ws).content = [expectedHeaders] := by
      simp [writeHeaderRow1, hfresh]
    have h1 : (processBooking bk1 ts1 ws).content = [expectedHeaders, bookingRow bk1 ts1] := by
      show (appendRow (ensureHeaders ws) (bookingRow bk1 ts1)).content = _
      rw [show ensureHeaders ws = writeHeaderRow1 ws from by simp [ensureHeaders, hsw]]
      show dropTrailingEmptyRows (writeHeaderRow1 ws).content ++ [bookingRow bk1 ts1] = _
      rw [hwc]
      rw [dropTrailingEmptyRows_eq_self (by
        intro r hr
        rw [List.mem_singleton] at hr
        rw [hr]
        exact rowIsEmpty_expectedHeaders)]
      rfl
    have hv1 : rowValues1 (processBooking bk1 ts1 ws) = expectedHeaders := by
      show dropTrailingEmptyCells ((processBooking bk1 ts1 ws).content.headD []) =
        expectedHeaders
      rw [h1]
      show dropTrailingEmptyCells expectedHeaders = expectedHeaders
      decide
    have hsw2 : shouldWriteHeaders (processBooking bk1 ts1 ws) = false := by
      unfold shouldWriteHeaders
      rw [hv1]
      decide
    have h2c : (processBooking bk2 ts2 (processBooking bk1 ts1 ws)).content =
        [expectedHeaders, bookingRow bk1 ts1, bookingRow bk2 ts2] := by
      show (appendRow (ensureHeaders (processBooking bk1 ts1 ws)) (bookingRow bk2 ts2)).content = _
      rw [show ensureHeaders (processBooking bk1 ts1 ws) = processBooking bk1 ts1 ws from
        by simp [ensureHeaders, hsw2]]
      show dropTrailingEmptyRows (processBooking bk1 ts1 ws).content ++ [bookingRow bk2 ts2] = _
      rw [h1]
      rw [dropTrailingEmptyRows_eq_self (by
        intro r hr
        rcases List.mem_cons.mp hr with rfl | hr2
        · exact rowIsEmpty_expectedHeaders
        · rcases List.mem_cons.mp hr2 with rfl | hr3
          · exact hrow1
          · exact absurd hr3 (List.not_mem_nil r))]
      rfl
    refine ⟨?_, h2c⟩
    rw [h2c]
    have hne1 : (bookingRow bk1 ts1 == expectedHeaders) = false :=
      beq_eq_false_iff_ne.mpr (bookingRow_ne_headers bk1 ts1)
    have hne2 : (bookingRow bk2 ts2 == expectedHeaders) = false :=
      beq_eq_false_iff_ne.mpr (bookingRow_ne_headers bk2 ts2)
    simp [List.count_cons, hne1, hne2]

/-- Witness for the C3 theorem: two concrete submissions on a fresh
worksheet produce exactly one header row. -/
theorem header_assurance_idempotent_witness :
    (processBooking bkGood (pys "ts2")
      (processBooking bkGood (pys "ts1") freshBookingsWs)).content.count expectedHeaders = 1 ∧
    ensureHeaders freshBookingsWs = writeHeaderRow1 freshBookingsWs := by
  have h := header_assurance_idempotent freshBookingsWs bkGood bkGood (pys "ts1") (pys "ts2")
  exact ⟨(h.2.2.2 rfl).1, h.2.2.1 (by decide)⟩

/-
Claim C2.
-/

theorem ensureHeadersStep_normal (e : Env) (ws : Worksheet)
    (h : e.headerCheckFails = false) :
    (ensureHeadersStep e ws).1 = ensureHeaders ws := by
  unfold ensureHeadersStep ensureHeaders
  rw [h]
  cases hs : shouldWriteHeaders ws <;> simp [hs]

theorem writeHeaderRow1_preserves_nonEmpty {ws : Worksheet}
    (h : ∀ r ∈ ws.content, rowIsEmpty r = false) :
    ∀ r ∈ (writeHeaderRow1 ws).content, rowIsEmpty r = false := by
  unfold writeHeaderRow1
  cases hc : ws.content with
  | nil =>
    intro r hr
    have hr2 : r ∈ [expectedHeaders] := hr
    rw [List.mem_singleton] at hr2
    rw [hr2]
    exact rowIsEmpty_expectedHeaders
  | cons r0 rest =>
    intro r hr
    have hr2 : r ∈ (expectedHeaders ++ r0.drop 6) :: rest := hr
    rcases List.mem_cons.mp hr2 with rfl | hr3
    · exact rowIsEmpty_append_left rowIsEmpty_expectedHeaders
    · exact h r (by rw [hc]; exact List.mem_cons_of_mem _ hr3)

theorem ensureHeaders_preserves_nonEmpty {ws : Worksheet}
    (h : ∀ r ∈ ws.content, rowIsEmpty r = false) :
    ∀ r ∈ (ensureHeaders ws).content, rowIsEmpty r = false := by
  unfold ensureHeaders
  cases hs : shouldWriteHeaders ws with
  | false => simpa using h
  | true => simpa using writeHeaderRow1_preserves_nonEmpty h

theorem worksheetStage_none (e : Env) (bk : BookingData) (client : Client)
    (sid : PyStr) (ss : Spreadsheet) (happ : e.appendFailure = none) :
    worksheetStage e bk client sid ss =
      ⟨⟨200, successBody (formatTimestamp e.now)
          ((getAllValues (appendRow (ensureHeadersStep e (getOrCreateWorksheet ss)).1
            (bookingRow bk (formatTimestamp e.now)))).length)
          ss.title client.email sid⟩,
       [Effect.resolveCredentials, Effect.openSpreadsheet sid, Effect.fetchWorksheet]
         ++ (ensureHeadersStep e (getOrCreateWorksheet ss)).2
         ++ [.appendRowCall (bookingRow bk (formatTimestamp e.now)), .readAllValues],
       some (appendRow (ensureHeadersStep e (getOrCreateWorksheet ss)).1
         (bookingRow bk (formatTimestamp e.now)))⟩ := by
  unfold worksheetStage
  rw [happ]

theorem lookupResp_successBody_success (ts : PyStr) (rn : Int) (ti em si : PyStr) :
    lookupResp (successBody ts rn ti em si) (pys "success") = some (.rbool true) := rfl

theorem lookupResp_successBody_rowNumber (ts : PyStr) (rn : Int) (ti em si : PyStr) :
    lookupResp (successBody ts rn ti em si) (pys "row_number") = some (.rint rn) := rfl

theorem lookupResp_successBody_timestamp (ts : PyStr) (rn : Int) (ti em si : PyStr) :
    lookupResp (successBody ts rn ti em si) (pys "timestamp") = some (.rstr ts) := rfl

theorem dropTrailingEmptyRows_append_nonEmpty (l : List (List PyStr)) {r : List PyStr}
    (h : rowIsEmpty r = false) : dropTrailingEmptyRows (l ++ [r]) = l ++ [r] := by
  unfold dropTrailingEmptyRows
  rw [List.reverse_append]
  simp [List.dropWhile_cons, h]

/-- C2 counterexample: against a reachable worksheet holding a header
row, an interior blank row, and one data row, a well-formed submission
succeeds with `row_number = 4` — `len(get_all_values())` counts the
blank row — while the worksheet holds only 3 non-empty rows after the
append, so the reported `row_number` is not the 1-based count of
non-empty rows. -/
theorem row_number_counts_blank_rows :
    (submit_booking envGap).response.status = 200 ∧
    lookupResp (submit_booking envGap).response.body (pys "row_number")
      = some (.rint 4) ∧
    countNonEmptyRows ((submit_booking envGap).finalWs.getD freshBookingsWs).content = 3 ∧
    lookupResp (submit_booking envGap).response.body (pys "row_number")
      ≠ some (.rint (countNonEmptyRows
          ((submit_booking envGap).finalWs.getD freshBookingsWs).content)) :=
  ⟨rfl, rfl, rfl, by decide⟩

/-- C2 (amended): a well-formed POST (all four fields non-blank after
trim) with working credentials and a reachable spreadsheet returns 200
with `success: true`, appends exactly one data row — the trimmed field
values followed by the `strftime`-formatted server timestamp and the
constant `Submitted`, placed immediately after the last non-empty row —
and reports a `row_number` equal to the total number of rows up to and
including the appended row, interior blank rows included; that total
coincides with the 1-based count of non-empty rows exactly when the
worksheet contains no blank row. -/
theorem wellformed_submission_row_position (e : Env) (data : Body) (bk : BookingData)
    (client : Client) (rawId : PyStr) (ss : Spreadsheet)
    (hm : e.method = .post) (hb : e.body = some data) (ht : data.truthy = true)
    (hv : computeMissing data requiredFields = .ok [])
    (hbd : buildBookingData data = .ok bk)
    (hc : get_google_sheets_client e.creds = some client)
    (hid : e.spreadsheetIdVar = some rawId) (hid2 : rawId.isEmpty = false)
    (hopen : e.openResult = .ok ss)
    (hhdr : e.headerCheckFails = false)
    (happ : e.appendFailure = none) :
    (submit_booking e).response.status = 200 ∧
    lookupResp (submit_booking e).response.body (pys "success") = some (.rbool true) ∧
    (submit_booking e).finalWs =
      some (processBooking bk (formatTimestamp e.now) (getOrCreateWorksheet ss)) ∧
    (processBooking bk (formatTimestamp e.now) (getOrCreateWorksheet ss)).content =
      dropTrailingEmptyRows (ensureHeaders (getOrCreateWorksheet ss)).content ++
        [[bk.name, bk.phone, bk.bookingTime, bk.location, formatTimestamp e.now,
          pys "Submitted"]] ∧
    lookupResp (submit_booking e).response.body (pys "row_number") =
      some (.rint ((processBooking bk (formatTimestamp e.now)
        (getOrCreateWorksheet ss)).content.length)) ∧
    ((∀ r ∈ (getOrCreateWorksheet ss).content, rowIsEmpty r = false) →
      (processBooking bk (formatTimestamp e.now) (getOrCreateWorksheet ss)).content.length =
        countNonEmptyRows
          (processBooking bk (formatTimestamp e.now) (getOrCreateWorksheet ss)).content) ∧
    lookupResp (submit_booking e).response.body (pys "timestamp") =
      some (.rstr (formatTimestamp e.now)) := by
  have hq : submit_booking e = worksheetStage e bk client (cleanSpreadsheetId rawId) ss := by
    unfold submit_booking
    rw [hm, hb]
    simp [ht, hv, hbd, hc, hid, hid2]
    unfold openStage
    rw [hopen]
  have hstep : (ensureHeadersStep e (getOrCreateWorksheet ss)).1 =
      ensureHeaders (getOrCreateWorksheet ss) := ensureHeadersStep_normal e _ hhdr
  have hrowne : rowIsEmpty (bookingRow bk (formatTimestamp e.now)) = false :=
    rowIsEmpty_bookingRow bk _
  have hget : getAllValues (processBooking bk (formatTimestamp e.now)
      (getOrCreateWorksheet ss)) =
      (processBooking bk (formatTimestamp e.now) (getOrCreateWorksheet ss)).content := by
    show dropTrailingEmptyRows
      (dropTrailingEmptyRows (ensureHeaders (getOrCreateWorksheet ss)).content
        ++ [bookingRow bk (formatTimestamp e.now)]) = _
    rw [dropTrailingEmptyRows_append_nonEmpty _ hrowne]
    rfl
  rw [hq, worksheetStage_none e bk client (cleanSpreadsheetId rawId) ss happ]
  refine ⟨rfl, lookupResp_successBody_success _ _ _ _ _, ?_, rfl, ?_, ?_, ?_⟩
  · rw [hstep]
    rfl
  · rw [lookupResp_successBody_rowNumber, hstep]
    rw [show appendRow (ensureHeaders (getOrCreateWorksheet ss))
        (bookingRow bk (formatTimestamp e.now)) =
      processBooking bk (formatTimestamp e.now) (getOrCreateWorksheet ss) from rfl]
    rw [hget]
  · intro hrows
    have hall : ∀ r ∈ (ensureHeaders (getOrCreateWorksheet ss)).content,
        rowIsEmpty r = false := ensureHeaders_preserves_nonEmpty hrows
    have hall2 : ∀ r ∈ (processBooking bk (formatTimestamp e.now)
        (getOrCreateWorksheet ss)).content, rowIsEmpty r = false := by
      show ∀ r ∈ dropTrailingEmptyRows (ensureHeaders (getOrCreateWorksheet ss)).content
          ++ [bookingRow bk (formatTimestamp e.now)], rowIsEmpty r = false
      rw [dropTrailingEmptyRows_eq_self hall]
      intro r hr
      rcases List.mem_append.mp hr with hr1 | hr1
      · exact hall r hr1
      · rw [List.mem_singleton] at hr1
        rw [hr1]
        exact hrowne
    rw [countNonEmptyRows_eq_length hall2]
  · exact lookupResp_successBody_timestamp _ _ _ _ _

/-- Witness for the amended C2 theorem: the specification's example
request against a healthy environment with a fresh worksheet, where the
no-blank-row condition holds and the reported position equals the
non-empty count. -/
theorem wellformed_submission_row_position_witness :
    (submit_booking envBase).response.status = 200 ∧
    lookupResp (submit_booking envBase).response.body (pys "success")
      = some (.rbool true) ∧
    lookupResp (submit_booking envBase).response.body (pys "row_number")
      = some (.rint ((processBooking bkGood (formatTimestamp envBase.now)
          (getOrCreateWorksheet sampleSpreadsheet)).content.length)) ∧
    (processBooking bkGood (formatTimestamp envBase.now)
        (getOrCreateWorksheet sampleSpreadsheet)).content.length =
      countNonEmptyRows (processBooking bkGood (formatTimestamp envBase.now)
        (getOrCreateWorksheet sampleSpreadsheet)).content := by
  have h := wellformed_submission_row_position envBase goodBody bkGood ⟨svcEmail⟩
    (pys "abc123") sampleSpreadsheet rfl rfl (by decide) rfl rfl rfl rfl (by decide)
    rfl rfl rfl
  exact ⟨h.1, h.2.1, h.2.2.2.2.1,
    h.2.2.2.2.2.1 (by intro r hr; exact absurd hr (List.not_mem_nil r))⟩

/-
Claim C5.
-/

theorem submit_booking_status_bounded (e : Env) :
    (submit_booking e).response.status = 200 ∨ (submit_booking e).response.status = 400 ∨
    (submit_booking e).response.status = 403 ∨ (submit_booking e).response.status = 404 ∨
    (submit_booking e).response.status = 500 := by
  cases hm : e.method with
  | options =>
    have hq : submit_booking e = pureOutcome 200 optionsBody [] := by
      unfold submit_booking
      rw [hm]
    rw [hq]
    exact .inl rfl
  | post =>
    cases hb : e.body with
    | none =>
      have hq : submit_booking e = pureOutcome 400 noJsonBody [] := by
        unfold submit_booking
        rw [hm, hb]
      rw [hq]
      exact .inr (.inl rfl)
    | some data =>
      cases ht : data.truthy with
      | false =>
        have hq : submit_booking e = pureOutcome 400 noJsonBody [] := by
          unfold submit_booking
          rw [hm, hb]
          simp [ht]
        rw [hq]
        exact .inr (.inl rfl)
      | true =>
        cases hcm : computeMissing data requiredFields with
        | error m =>
          have hq : submit_booking e = pureOutcome 500 (internalErrorBody m) [] := by
            unfold submit_booking
            rw [hm, hb]
            simp [ht, hcm]
          rw [hq]
          exact .inr (.inr (.inr (.inr rfl)))
        | ok missing =>
          cases hmiss : missing.isEmpty with
          | false =>
            have hq : submit_booking e = pureOutcome 400 (missingFieldsBody missing) [] := by
              unfold submit_booking
              rw [hm, hb]
              simp [ht, hcm, hmiss]
            rw [hq]
            exact .inr (.inl rfl)
          | true =>
            cases hbd : buildBookingData data with
            | error m =>
              have hq : submit_booking e = pureOutcome 500 (internalErrorBody m) [] := by
                unfold submit_booking
                rw [hm, hb]
                simp [ht, hcm, hmiss, hbd]
              rw [hq]
              exact .inr (.inr (.inr (.inr rfl)))
            | ok bk =>
              cases hc : get_google_sheets_client e.creds with
              | none =>
                have hq : submit_booking e =
                    pureOutcome 500 configErrorBody [.resolveCredentials] := by
                  unfold submit_booking
                  rw [hm, hb]
                  simp [ht, hcm, hmiss, hbd, hc]
                rw [hq]
                exact .inr (.inr (.inr (.inr rfl)))
              | some client =>
                cases hsid : e.spreadsheetIdVar with
                | none =>
                  have hq : submit_booking e =
                      pureOutcome 500 noSpreadsheetIdBody [.resolveCredentials] := by
                    unfold submit_booking
                    rw [hm, hb]
                    simp [ht, hcm, hmiss, hbd, hc, hsid]
                  rw [hq]
                  exact .inr (.inr (.inr (.inr rfl)))
                | some rawId =>
                  cases hraw : rawId.isEmpty with
                  | true =>
                    have hq : submit_booking e =
                        pureOutcome 500 noSpreadsheetIdBody [.resolveCredentials] := by
                      unfold submit_booking
                      rw [hm, hb]
                      simp [ht, hcm, hmiss, hbd, hc, hsid, hraw]
                    rw [hq]
                    exact .inr (.inr (.inr (.inr rfl)))
                  | false =>
                    have hq : submit_booking e =
                        openStage e bk client (cleanSpreadsheetId rawId) := by
                      unfold submit_booking
                      rw [hm, hb]
                      simp [ht, hcm, hmiss, hbd, hc, hsid, hraw]
                    rw [hq]
                    rcases openStage_status e bk client (cleanSpreadsheetId rawId)
                        with h4 | h4 | h4 | h4
                    · exact .inr (.inr (.inr (.inl h4)))
                    · exact .inr (.inr (.inl h4))
                    · exact .inr (.inr (.inr (.inr h4)))
                    · exact .inl h4

/-- C5 counterexample: the API-disabled failure draws a 403 whose body
carries a remediation step list but mentions the service account's
email address nowhere — only the permission-denied 403 includes the
email, so the claim that both 403 responses contain it is false. -/
theorem disabled_response_lacks_email :
    (submit_booking envDisabled).response.status = 403 ∧
    (submit_booking envDisabled).response.body = apiDisabledBody ∧
    respHasSub (submit_booking envDisabled).response.body svcEmail = false :=
  ⟨rfl, rfl, by decide⟩

/-- C5 (amended): every failure is converted to a structured response
with the status fixed by its kind — spreadsheet not found 404,
permission denied 403, upstream API disabled 403, append-time and other
failures 500 — and both 403 responses carry a remediation step list,
but only the permission-denied one includes the service account's email
address; no POST outcome leaves the handler with a status outside
{200, 400, 403, 404, 500}. -/
theorem error_status_mapping (e : Env) (data : Body) (bk : BookingData)
    (client : Client) (rawId : PyStr)
    (hm : e.method = .post) (hb : e.body = some data) (ht : data.truthy = true)
    (hv : computeMissing data requiredFields = .ok [])
    (hbd : buildBookingData data = .ok bk)
    (hc : get_google_sheets_client e.creds = some client)
    (hid : e.spreadsheetIdVar = some rawId) (hid2 : rawId.isEmpty = false) :
    (e.openResult = .notFound → (submit_booking e).response.status = 404 ∧
      (submit_booking e).response.body = notFoundBody (cleanSpreadsheetId rawId)) ∧
    (∀ msg, e.openResult = .apiError msg → permissionSignal msg = true →
      (submit_booking e).response.status = 403 ∧
      (submit_booking e).response.body =
        permissionDeniedBody client.email (cleanSpreadsheetId rawId) ∧
      respHasSub (submit_booking e).response.body client.email = true ∧
      permissionSteps client.email (cleanSpreadsheetId rawId) ≠ []) ∧
    (∀ msg, e.openResult = .apiError msg → permissionSignal msg = false →
      disabledSignal msg = true →
      (submit_booking e).response.status = 403 ∧
      (submit_booking e).response.body = apiDisabledBody ∧
      apiDisabledSteps ≠ []) ∧
    (∀ msg, e.openResult = .apiError msg → permissionSignal msg = false →
      disabledSignal msg = false → (submit_booking e).response.status = 500) ∧
    (∀ msg, e.openResult = .otherFailure msg →
      (submit_booking e).response.status = 500) ∧
    (∀ ss m, e.openResult = .ok ss → e.appendFailure = some m →
      (submit_booking e).response.status = 500 ∧
      (submit_booking e).response.body = saveFailedBody m) ∧
    (∀ e2 : Env, (submit_booking e2).response.status = 200 ∨
      (submit_booking e2).response.status = 400 ∨
      (submit_booking e2).response.status = 403 ∨
      (submit_booking e2).response.status = 404 ∨
      (submit_booking e2).response.status = 500) := by
  have hq : submit_booking e = openStage e bk client (cleanSpreadsheetId rawId) := by
    unfold submit_booking
    rw [hm, hb]
    simp [ht, hv, hbd, hc, hid, hid2]
  refine ⟨?_, ?_, ?_, ?_, ?_, ?_, fun e2 => submit_booking_status_bounded e2⟩
  · intro hopen
    have hq2 : submit_booking e = pureOutcome 404 (notFoundBody (cleanSpreadsheetId rawId))
        [Effect.resolveCredentials, Effect.openSpreadsheet (cleanSpreadsheetId rawId)] := by
      rw [hq]
      unfold openStage
      rw [hopen]
    rw [hq2]
    exact ⟨rfl, rfl⟩
  · intro msg hopen hperm
    have hq2 : submit_booking e = pureOutcome 403
        (permissionDeniedBody client.email (cleanSpreadsheetId rawId))
        [Effect.resolveCredentials, Effect.openSpreadsheet (cleanSpreadsheetId rawId)] := by
      rw [hq]
      unfold openStage
      rw [hopen]
      simp [hperm]
    rw [hq2]
    refine ⟨rfl, rfl, ?_, by simp [permissionSteps]⟩
    show respHasSub (permissionDeniedBody client.email (cleanSpreadsheetId rawId))
      client.email = true
    simp [respHasSub, permissionDeniedBody, rvalHasSub, isSub_append_self]
  · intro msg hopen hperm hdis
    have hq2 : submit_booking e = pureOutcome 403 apiDisabledBody
        [Effect.resolveCredentials, Effect.openSpreadsheet (cleanSpreadsheetId rawId)] := by
      rw [hq]
      unfold openStage
      rw [hopen]
      simp [hperm, hdis]
    rw [hq2]
    exact ⟨rfl, rfl, by simp [apiDisabledSteps]⟩
  · intro msg hopen hperm hdis
    have hq2 : submit_booking e = pureOutcome 500 (apiErrorBody msg)
        [Effect.resolveCredentials, Effect.openSpreadsheet (cleanSpreadsheetId rawId)] := by
      rw [hq]
      unfold openStage
      rw [hopen]
      simp [hperm, hdis]
    rw [hq2]
    rfl
  · intro msg hopen
    rw [hq]
    unfold openStage
    rw [hopen]
    rfl
  · intro ss m hopen happ2
    rw [hq]
    unfold openStage
    rw [hopen]
    unfold worksheetStage
    rw [happ2]
    exact ⟨rfl, rfl⟩

/-- Witness for the amended C5 theorem at concrete failure
environments. -/
theorem error_status_mapping_witness :
    (submit_booking envNotFound).response.status = 404 ∧
    (submit_booking envPermDenied).response.status = 403 ∧
    respHasSub (submit_booking envPermDenied).response.body svcEmail = true := by
  have h1 := error_status_mapping envNotFound goodBody bkGood ⟨svcEmail⟩ (pys "abc123")
    rfl rfl (by decide) rfl rfl rfl rfl (by decide)
  have h2 := error_status_mapping envPermDenied goodBody bkGood ⟨svcEmail⟩ (pys "abc123")
    rfl rfl (by decide) rfl rfl rfl rfl (by decide)
  refine ⟨(h1.1 rfl).1, ?_, ?_⟩
  · exact (h2.2.1 _ rfl (by decide)).1
  · exact (h2.2.1 _ rfl (by decide)).2.2.1

end Mineka
